import Mathlib

/-!
Shallow embedding of `src/mal-scraper.py` (an Isekai-anime scraper for the
Jikan REST API) together with proofs about the properties claimed by its
specification.

Modelling conventions:
* Python dictionaries / JSON values are modelled by the inductive `Json`.
* `d[k]` (raising `KeyError`) is `Json.index`, returning `Except`;
  `d.get(k, default)` is `Json.getD`.  Attribute/type errors raised by
  using a non-dict where a dict is expected surface as lookup failures,
  which land in the same exception-handling path as in the Python code.
* Wall-clock time (`time.time()`, `asyncio.sleep`) is modelled with `ℚ`:
  a sleep advances the modelled time by the slept amount.
* The HTTP transport is an oracle: a function from the attempt index (for
  the retrying client) or from request parameters (for the scraper) to an
  outcome.
-/

set_option autoImplicit false

namespace MalScraper

/-- JSON values / Python dictionaries as they appear in Jikan API responses. -/
inductive Json where
  | jnull
  | jstr (s : String)
  | jnum (n : Int)
  | jlist (xs : List Json)
  | jobj (fields : List (String × Json))

/-- Key lookup in a JSON object; `none` when the key is missing or the value
is not an object (in Python the latter raises, landing in the same `except`
branch as a `KeyError` everywhere this is used). -/
def Json.lookup (j : Json) (key : String) : Option Json :=
  match j with
  | .jobj fields => List.lookup key fields
  | _ => none

/-- Python subscript `d[key]`: raises `KeyError` (modelled as `Except.error`)
when the key is absent. -/
def Json.index (j : Json) (key : String) : Except String Json :=
  match j.lookup key with
  | some v => Except.ok v
  | none => Except.error key

/-- Python `d.get(key, default)`. -/
def Json.getD (j : Json) (key : String) (default : Json) : Json :=
  (j.lookup key).getD default

/-- Python truthiness of a JSON value (`if not x`). -/
def Json.isTruthy : Json → Bool
  | .jnull => false
  | .jstr s => !(s == "")
  | .jnum n => !(n == 0)
  | .jlist xs => !xs.isEmpty
  | .jobj fields => !fields.isEmpty

/-- Python `str()` conversion as used inside f-strings.  Container reprs are
abstracted (no claim in scope depends on them). -/
def Json.pyStr : Json → String
  | .jstr s => s
  | .jnum n => toString n
  | .jnull => "None"
  | .jlist _ => "<list>"
  | .jobj _ => "<dict>"

/-- Conversion demanded by `str.join`, which raises `TypeError` on non-string
elements. -/
def Json.asStr : Json → Except String String
  | .jstr s => Except.ok s
  | _ => Except.error "TypeError"

/-- State of `RateLimiter` (`requests_per_second`/`requests_per_minute` are
`int` in the source; time-valued fields are modelled with `ℚ`). -/
structure RateLimiter where
  requests_per_second : Nat
  requests_per_minute : Nat
  last_request_time : ℚ
  requests_this_minute : Nat
  minute_start_time : ℚ

/-- The modelled time at which the per-second gate of `RateLimiter.wait`
releases the caller: line 33-34 of the source sleeps for exactly
`1/requests_per_second - time_since_last_request` when that is positive. -/
def RateLimiter.afterPerSecond (s : RateLimiter) (current_time : ℚ) : ℚ :=
  let time_since_last_request := current_time - s.last_request_time
  if time_since_last_request < 1 / (s.requests_per_second : ℚ) then
    current_time + (1 / (s.requests_per_second : ℚ) - time_since_last_request)
  else current_time

/-- `RateLimiter.wait`, lines 28-47 of the source.  `current_time` is the
value of `time.time()` at entry; the result is the updated state paired with
the modelled time at which `wait` returns (which is also the recorded
`last_request_time`). -/
def RateLimiter.wait (s : RateLimiter) (current_time : ℚ) : RateLimiter × ℚ :=
  let t1 := s.afterPerSecond current_time
  let rtm := if current_time - s.minute_start_time ≥ 60 then 0 else s.requests_this_minute
  let mst := if current_time - s.minute_start_time ≥ 60 then current_time else s.minute_start_time
  if rtm ≥ s.requests_per_minute then
    let t2 := t1 + (60 - (current_time - mst))
    ({ s with requests_this_minute := 1, minute_start_time := t2, last_request_time := t2 }, t2)
  else
    ({ s with requests_this_minute := rtm + 1, minute_start_time := mst, last_request_time := t1 }, t1)

/-! ## JikanAPI -/

/-- What the HTTP transport does on one attempt of `JikanAPI.get`. -/
inductive HttpOutcome where
  | success (payload : Json)
  | httpError (status : Nat)
  | netError

/-- Result of `JikanAPI.get`. -/
inductive GetOutcome where
  | ok (payload : Json)
  | raised (status : Nat)
  | maxRetriesExceeded

/-- The `while retries > 0` loop of `JikanAPI.get`, lines 55-79.  The
transport is indexed by the attempt number.  Returns the outcome, the number
of attempts issued and the total backoff time slept (in seconds). -/
def getAux (transport : Nat → HttpOutcome) :
    Nat → Nat → Nat → Nat → Nat → GetOutcome × Nat × Nat
  | 0, _, _, attempts, slept => (.maxRetriesExceeded, attempts, slept)
  | retries + 1, backoff_time, attempt, attempts, slept =>
    match transport attempt with
    | .success payload => (.ok payload, attempts + 1, slept)
    | .httpError status =>
      if status = 429 then
        getAux transport retries (backoff_time * 2) (attempt + 1) (attempts + 1)
          (slept + backoff_time)
      else (.raised status, attempts + 1, slept)
    | .netError =>
      getAux transport retries (backoff_time * 2) (attempt + 1) (attempts + 1)
        (slept + backoff_time)

/-- `JikanAPI.get`: retry budget 5, initial backoff 1 second. -/
def JikanAPI.get (transport : Nat → HttpOutcome) : GetOutcome × Nat × Nat :=
  getAux transport 5 1 0 0 0

/-! ## IsekaiAnimeScraper: paginated list fetch -/

/-- Query parameters of one request to the `/anime` list endpoint, built at
lines 93-99 and 102 of the source. -/
structure PageParams where
  genres : String
  order_by : String
  sort : String
  sfw : String
  limit : Nat
  page : Nat

/-- The params dict sent for page `page`: `limit` is set once to 25 ("Max
allowed by the API") and never modified; only `page` varies. -/
def mkPageParams (page : Nat) : PageParams :=
  { genres := "62", order_by := "popularity", sort := "asc", sfw := "false",
    limit := 25, page := page }

/-- The `while len(anime_list) < self.config.anime_limit` loop of
`fetch_isekai_anime` (lines 101-114).  `listApi page` is the transport's
response for that page (already through `JikanAPI.get`, so `Except.error`
is any exception it raised).  Accumulates the fetched items and the list of
issued page requests.  A failed page or an empty/non-list `data` breaks the
loop keeping partial results. -/
def fetchIsekaiLoop (listApi : Nat → Except String Json) (anime_limit : Nat)
    (acc : List Json) (page : Nat) (issued : List PageParams) :
    List Json × List PageParams :=
  if _h : acc.length < anime_limit then
    match listApi page with
    | .error _ => (acc, issued ++ [mkPageParams page])
    | .ok response =>
      match response.getD "data" (Json.jlist []) with
      | .jlist [] => (acc, issued ++ [mkPageParams page])
      | .jlist (x :: xs) =>
        fetchIsekaiLoop listApi anime_limit (acc ++ x :: xs) (page + 1)
          (issued ++ [mkPageParams page])
      | _ => (acc, issued ++ [mkPageParams page])
  else (acc, issued)
termination_by anime_limit - acc.length
decreasing_by
  simp only [List.length_append, List.length_cons]
  omega

/-- `fetch_isekai_anime` (lines 90-116): runs the pagination loop from page 1
and trims the surplus of the final page with `anime_list[:anime_limit]`.
Also returns the page requests issued, for reasoning about the query
parameters. -/
def fetch_isekai_anime (listApi : Nat → Except String Json) (anime_limit : Nat) :
    List Json × List PageParams :=
  let r := fetchIsekaiLoop listApi anime_limit [] 1 []
  (r.1.take anime_limit, r.2)

/-! ## Per-anime and per-character fetches -/

/-- `fetch_character_details` (lines 126-132): `none` on any exception,
otherwise `response.get("data", {})`. -/
def fetch_character_details (apiResult : Except String Json) : Option Json :=
  match apiResult with
  | .error _ => none
  | .ok response => some (response.getD "data" (Json.jobj []))

/-! ## Exporter: row construction -/

/-- One row of the anime CSV (fieldnames at lines 137-141). -/
structure AnimeRow where
  mal_id : Json
  title : Json
  title_english : Json
  synopsis : Json
  type : Json
  episodes : Json
  status : Json
  aired_from : Json
  aired_to : Json
  score : Json
  scored_by : Json
  rank : Json
  popularity : Json
  members : Json
  favorites : Json
  studios : String
  genres : String
  themes : String
  duration : Json
  rating : Json
  season : Json
  year : Json

/-- One row of the character CSV (fieldnames at lines 175-178). -/
structure CharRow where
  mal_id : Json
  name : Json
  name_kanji : Json
  nicknames : String
  about : Json
  role : Json
  anime_mal_id : Json
  favorites : Json
  voice_actors : String

/-- Python `", ".join(x["name"] for x in j)` over a JSON list of objects. -/
def joinNames (j : Json) : Except String String :=
  match j with
  | .jlist xs =>
    (xs.mapM (fun x => x.index "name" >>= Json.asStr)).map (String.intercalate ", ")
  | _ => Except.error "TypeError"

/-- Python `", ".join(j)` over a JSON list whose elements must be strings. -/
def joinStrs (j : Json) : Except String String :=
  match j with
  | .jlist xs => (xs.mapM Json.asStr).map (String.intercalate ", ")
  | _ => Except.error "TypeError"

/-- Python `", ".join(f-string for va in j)` at line 193: each entry renders
as `'person.name:language'`. -/
def joinVoiceActors (j : Json) : Except String String :=
  match j with
  | .jlist xs =>
    (xs.mapM (fun (va : Json) => do
      let person ← va.index "person"
      let pname ← person.index "name"
      let lang ← va.index "language"
      pure ("'" ++ pname.pyStr ++ ":" ++ lang.pyStr ++ "'") :
        Json → Except String String)).map
      (String.intercalate ", ")
  | _ => Except.error "TypeError"

/-- Evaluation of the `writer.writerow({...})` dict literal for one anime
(lines 144-167), in Python's left-to-right evaluation order.  Subscripted
fields raise `KeyError` when missing; only `title_english`, `synopsis`,
`season` and `year` use `.get` with an empty-string default. -/
def buildAnimeRow (anime : Json) : Except String AnimeRow := do
  let mal_id ← anime.index "mal_id"
  let title ← anime.index "title"
  let title_english := anime.getD "title_english" (Json.jstr "")
  let synopsis := anime.getD "synopsis" (Json.jstr "")
  let type ← anime.index "type"
  let episodes ← anime.index "episodes"
  let status ← anime.index "status"
  let aired_from ← (← anime.index "aired").index "from"
  let aired_to ← (← anime.index "aired").index "to"
  let score ← anime.index "score"
  let scored_by ← anime.index "scored_by"
  let rank ← anime.index "rank"
  let popularity ← anime.index "popularity"
  let members ← anime.index "members"
  let favorites ← anime.index "favorites"
  let studios ← joinNames (← anime.index "studios")
  let genres ← joinNames (← anime.index "genres")
  let themes ← joinNames (← anime.index "themes")
  let duration ← anime.index "duration"
  let rating ← anime.index "rating"
  let season := anime.getD "season" (Json.jstr "")
  let year := anime.getD "year" (Json.jstr "")
  pure { mal_id := mal_id, title := title, title_english := title_english,
         synopsis := synopsis, type := type, episodes := episodes,
         status := status, aired_from := aired_from, aired_to := aired_to,
         score := score, scored_by := scored_by, rank := rank,
         popularity := popularity, members := members, favorites := favorites,
         studios := studios, genres := genres, themes := themes,
         duration := duration, rating := rating, season := season, year := year }

/-- Evaluation of the `writer.writerow({...})` dict literal for one character
(lines 184-194).  Only `name_kanji`, `nicknames` and `about` use `.get`
defaults. -/
def buildCharRow (character char_details : Json) : Except String CharRow := do
  let mal_id ← char_details.index "mal_id"
  let name ← char_details.index "name"
  let name_kanji := char_details.getD "name_kanji" (Json.jstr "")
  let nicknames ← joinStrs (char_details.getD "nicknames" (Json.jlist []))
  let about := char_details.getD "about" (Json.jstr "")
  let role ← character.index "role"
  let anime_mal_id ← character.index "anime_mal_id"
  let favorites ← char_details.index "favorites"
  let voice_actors ← joinVoiceActors (← character.index "voice_actors")
  pure { mal_id := mal_id, name := name, name_kanji := name_kanji,
         nicknames := nicknames, about := about, role := role,
         anime_mal_id := anime_mal_id, favorites := favorites,
         voice_actors := voice_actors }

/-! ## Exporter: file writing -/

/-- State of one output CSV artifact after a run.  `absent`: the `open` call
failed, nothing was written.  `aborted`: an exception was raised while
writing; the rows already written remain in the file.  `complete`: all rows
written. -/
inductive CsvFile (α : Type) where
  | absent (err : String)
  | aborted (rows : List α) (err : String)
  | complete (rows : List α)

/-- The row-writing loop of `process_anime_data` (lines 143-167): rows
written so far, plus the exception (if any) that aborted the loop. -/
def animeWriteLoop : List Json → List AnimeRow × Option String
  | [] => ([], none)
  | anime :: rest =>
    match buildAnimeRow anime with
    | .error e => ([], some e)
    | .ok row =>
      let r := animeWriteLoop rest
      (row :: r.1, r.2)

/-- `process_anime_data` (lines 134-170).  `openFail` is `some e` when the
`open` call raises.  Every exception is caught at line 169 and only logged:
the function always returns normally. -/
def process_anime_data (openFail : Option String) (anime_list : List Json) :
    CsvFile AnimeRow :=
  match openFail with
  | some e => .absent e
  | none =>
    match animeWriteLoop anime_list with
    | (rows, none) => .complete rows
    | (rows, some e) => .aborted rows e

/-- Body of one iteration of the `for character in all_characters` loop
(lines 180-194): fetch the detail record by `character["character"]["mal_id"]`,
skip (`continue`) when it is falsy, otherwise build the row.  Any raised
`KeyError`/`TypeError` is `Except.error`. -/
def charStep (detailApi : Json → Except String Json) (character : Json) :
    Except String (Option CharRow) := do
  let inner ← character.index "character"
  let cid ← inner.index "mal_id"
  match fetch_character_details (detailApi cid) with
  | none => pure none
  | some char_details =>
    if char_details.isTruthy then do
      let row ← buildCharRow character char_details
      pure (some row)
    else pure none

/-- The row-writing loop of `process_character_data` (lines 180-194). -/
def charWriteLoop (detailApi : Json → Except String Json) :
    List Json → List CharRow × Option String
  | [] => ([], none)
  | character :: rest =>
    match charStep detailApi character with
    | .error e => ([], some e)
    | .ok none => charWriteLoop detailApi rest
    | .ok (some row) =>
      let r := charWriteLoop detailApi rest
      (row :: r.1, r.2)

/-- `process_character_data` (lines 172-197); like `process_anime_data`,
every exception is caught at line 196 and only logged. -/
def process_character_data (openFail : Option String)
    (detailApi : Json → Except String Json) (all_characters : List Json) :
    CsvFile CharRow :=
  match openFail with
  | some e => .absent e
  | none =>
    match charWriteLoop detailApi all_characters with
    | (rows, none) => .complete rows
    | (rows, some e) => .aborted rows e

/-! ## run -/

lemma getAux_all_fail (transport : Nat → HttpOutcome)
    (h : ∀ i, transport i = HttpOutcome.httpError 429 ∨ transport i = HttpOutcome.netError) :
    ∀ retries backoff attempt attempts slept : Nat,
      (getAux transport retries backoff attempt attempts slept).1 =
        GetOutcome.maxRetriesExceeded ∧
      (getAux transport retries backoff attempt attempts slept).2.1 =
        attempts + retries := by
  intro retries
  induction retries with
  | zero => intro b a n s; exact ⟨rfl, rfl⟩
  | succ r ih =>
    intro b a n s
    have harith : (n + 1) + r = n + (r + 1) := by omega
    rcases h a with h' | h'
    · simp only [getAux, h', eq_self_iff_true, if_true]
      exact ⟨(ih _ _ _ _).1, by rw [(ih (b * 2) (a + 1) (n + 1) (s + b)).2, harith]⟩
    · simp only [getAux, h']
      exact ⟨(ih _ _ _ _).1, by rw [(ih (b * 2) (a + 1) (n + 1) (s + b)).2, harith]⟩

/-- C4: if the transport yields HTTP 429 or a transient network error on
every attempt, `get` makes exactly 5 attempts and then fails terminally
with the max-retries error; it never succeeds and never issues a 6th
attempt. -/
theorem get_exhausts_after_five_attempts (transport : Nat → HttpOutcome)
    (h : ∀ i, transport i = HttpOutcome.httpError 429 ∨ transport i = HttpOutcome.netError) :
    (JikanAPI.get transport).1 = GetOutcome.maxRetriesExceeded ∧
    (JikanAPI.get transport).2.1 = 5 := by
  have := getAux_all_fail transport h 5 1 0 0 0
  simpa [JikanAPI.get] using this

/-- C4 witness: a transport that always answers 429. -/
theorem get_exhausts_after_five_attempts_witness :
    (JikanAPI.get (fun _ => HttpOutcome.httpError 429)).1 =
      GetOutcome.maxRetriesExceeded ∧
    (JikanAPI.get (fun _ => HttpOutcome.httpError 429)).2.1 = 5 :=
  get_exhausts_after_five_attempts (fun _ => HttpOutcome.httpError 429)
    (fun _ => Or.inl rfl)

lemma getAux_k_fail_then_ok (transport : Nat → HttpOutcome) (p : Json) :
    ∀ k retries backoff attempt attempts slept : Nat, k < retries →
      (∀ i, i < k → transport (attempt + i) = HttpOutcome.httpError 429) →
      transport (attempt + k) = HttpOutcome.success p →
      getAux transport retries backoff attempt attempts slept =
        (GetOutcome.ok p, attempts + k + 1, slept + backoff * (2 ^ k - 1)) := by
  intro k
  induction k with
  | zero =>
    intro retries b a n s hk h429 hok
    obtain ⟨r, rfl⟩ : ∃ r, retries = r + 1 := ⟨retries - 1, by omega⟩
    have h0 : transport a = HttpOutcome.success p := by simpa using hok
    simp [getAux, h0]
  | succ k ih =>
    intro retries b a n s hk h429 hok
    obtain ⟨r, rfl⟩ : ∃ r, retries = r + 1 := ⟨retries - 1, by omega⟩
    have h0 : transport a = HttpOutcome.httpError 429 := by
      simpa using h429 0 (by omega)
    have hrec := ih r (b * 2) (a + 1) (n + 1) (s + b) (by omega)
      (fun i hi => by
        have := h429 (i + 1) (by omega)
        simpa [show a + (i + 1) = a + 1 + i by omega] using this)
      (by simpa [show a + (k + 1) = a + 1 + k by omega] using hok)
    obtain ⟨t, ht⟩ : ∃ t, 2 ^ k = t + 1 :=
      ⟨2 ^ k - 1, by have := Nat.one_le_two_pow (n := k); omega⟩
    have hp : 2 ^ (k + 1) = (t + 1) * 2 := by rw [pow_succ, ht]
    have e1 : n + 1 + k + 1 = n + (k + 1) + 1 := by omega
    have h2 : (t + 1) * 2 - 1 = 2 * t + 1 := by omega
    have e2 : s + b + b * 2 * (2 ^ k - 1) = s + b * (2 ^ (k + 1) - 1) := by
      rw [ht, hp, Nat.add_sub_cancel, h2]; ring
    simp only [getAux, h0, eq_self_iff_true, if_true, hrec, e1, e2]

/-- C5: if the transport answers HTTP 429 exactly `k < 5` times and then
succeeds, `get` returns the successful payload after `k + 1` attempts, and
the total backoff time slept is `1 + 2 + ... + 2^(k-1) = 2^k - 1` seconds. -/
theorem get_retry_backoff_sum (transport : Nat → HttpOutcome) (k : Nat) (p : Json)
    (hk : k < 5) (h429 : ∀ i, i < k → transport i = HttpOutcome.httpError 429)
    (hok : transport k = HttpOutcome.success p) :
    JikanAPI.get transport = (GetOutcome.ok p, k + 1, 2 ^ k - 1) := by
  have := getAux_k_fail_then_ok transport p k 5 1 0 0 0 hk
    (fun i hi => by simpa using h429 i hi) (by simpa using hok)
  simpa [JikanAPI.get] using this

/-- C5 witness: three 429 answers, then success; total backoff 7 seconds. -/
theorem get_retry_backoff_sum_witness :
    JikanAPI.get
        (fun i => if i < 3 then HttpOutcome.httpError 429
                  else HttpOutcome.success (Json.jnum 7)) =
      (GetOutcome.ok (Json.jnum 7), 4, 7) :=
  get_retry_backoff_sum
    (fun i => if i < 3 then HttpOutcome.httpError 429
              else HttpOutcome.success (Json.jnum 7))
    3 (Json.jnum 7) (by omega) (fun i hi => by interval_cases i <;> rfl) rfl

/-- C6: when the transport answers any HTTP error status other than 429 on
the first attempt, `get` propagates it at once: one attempt, no sleep, no
retry. -/
theorem get_hard_error_immediate (transport : Nat → HttpOutcome) (status : Nat)
    (hne : status ≠ 429) (h0 : transport 0 = HttpOutcome.httpError status) :
    JikanAPI.get transport = (GetOutcome.raised status, 1, 0) := by
  simp [JikanAPI.get, getAux, h0, hne]

/-- C6 witness: an immediate 404. -/
theorem get_hard_error_immediate_witness :
    JikanAPI.get (fun _ => HttpOutcome.httpError 404) =
      (GetOutcome.raised 404, 1, 0) :=
  get_hard_error_immediate (fun _ => HttpOutcome.httpError 404) 404
    (by omega) rfl

/-! ## Theorems about `RateLimiter.wait` -/

lemma afterPerSecond_ge (s : RateLimiter) (t : ℚ)
    (hR : 0 < s.requests_per_second) :
    s.last_request_time + 1 / (s.requests_per_second : ℚ) ≤ s.afterPerSecond t := by
  have hR' : (0 : ℚ) < (s.requests_per_second : ℚ) := by exact_mod_cast hR
  simp only [RateLimiter.afterPerSecond]
  split
  · linarith
  · next h =>
    push_neg at h
    linarith

lemma wait_ret_ge (s : RateLimiter) (t : ℚ) :
    s.afterPerSecond t ≤ (s.wait t).2 := by
  simp only [RateLimiter.wait]
  by_cases hcap :
      (if t - s.minute_start_time ≥ 60 then 0 else s.requests_this_minute) ≥
        s.requests_per_minute
  · rw [if_pos hcap]
    dsimp only
    by_cases hwin : t - s.minute_start_time ≥ 60
    · rw [if_pos hwin]; linarith
    · rw [if_neg hwin]
      push_neg at hwin
      linarith
  · rw [if_neg hcap]

lemma wait_last_eq (s : RateLimiter) (t : ℚ) :
    ((s.wait t).1).last_request_time = (s.wait t).2 := by
  simp only [RateLimiter.wait]
  split <;> split <;> rfl

lemma wait_rps_eq (s : RateLimiter) (t : ℚ) :
    ((s.wait t).1).requests_per_second = s.requests_per_second := by
  simp only [RateLimiter.wait]
  split <;> split <;> rfl

lemma wait_gap (s : RateLimiter) (t : ℚ)
    (hR : 0 < s.requests_per_second) :
    s.last_request_time + 1 / (s.requests_per_second : ℚ) ≤ (s.wait t).2 :=
  le_trans (afterPerSecond_ge s t hR) (wait_ret_ge s t)

/-- C8: calling `wait` twice in succession (the second call entered at any
time `t1` not before the first call returned), the second return time is at
least `1/requests_per_second` after the first; and whenever less than
`1/requests_per_second` has elapsed since the recorded request time, the
per-second gate suspends for exactly the remaining delta, releasing exactly
at `last_request_time + 1/requests_per_second`. -/
theorem wait_consecutive_gap (s : RateLimiter) (t0 t1 : ℚ)
    (hR : 0 < s.requests_per_second) (hnext : (s.wait t0).2 ≤ t1) :
    (s.wait t0).2 + 1 / (s.requests_per_second : ℚ) ≤ (((s.wait t0).1).wait t1).2 ∧
    (t1 - ((s.wait t0).1).last_request_time < 1 / (s.requests_per_second : ℚ) →
      ((s.wait t0).1).afterPerSecond t1 =
        ((s.wait t0).1).last_request_time + 1 / (s.requests_per_second : ℚ)) := by
  have hlast := wait_last_eq s t0
  have hrps := wait_rps_eq s t0
  constructor
  · have h := wait_gap ((s.wait t0).1) t1 (by rw [hrps]; exact hR)
    rw [hlast, hrps] at h
    exact h
  · intro hlt
    simp only [RateLimiter.afterPerSecond, hrps]
    rw [if_pos hlt]
    ring

/-- C8 witness: a fresh limiter at 2 requests/second, first call at time 0,
second call entered exactly when the first returned. -/
theorem wait_consecutive_gap_witness :
    (RateLimiter.wait ⟨2, 50, 0, 0, 0⟩ 0).2 +
        1 / ((2 : Nat) : ℚ) ≤
      ((RateLimiter.wait ⟨2, 50, 0, 0, 0⟩ 0).1.wait
        ((RateLimiter.wait ⟨2, 50, 0, 0, 0⟩ 0).2)).2 :=
  (wait_consecutive_gap ⟨2, 50, 0, 0, 0⟩ 0
    ((RateLimiter.wait ⟨2, 50, 0, 0, 0⟩ 0).2) (by decide) (le_refl _)).1

/-- C9: after any completed call to `wait` on a limiter whose per-minute cap
is at least 1, the counter `requests_this_minute` lies in
`[1, requests_per_minute]`: each of the three branches (window reset,
cap-reached sleep-and-reset, plain increment) preserves the cap. -/
theorem wait_minute_counter_bounds (s : RateLimiter) (t : ℚ)
    (hM : 1 ≤ s.requests_per_minute) :
    1 ≤ ((s.wait t).1).requests_this_minute ∧
    ((s.wait t).1).requests_this_minute ≤ s.requests_per_minute := by
  simp only [RateLimiter.wait]
  by_cases hcap :
      (if t - s.minute_start_time ≥ 60 then 0 else s.requests_this_minute) ≥
        s.requests_per_minute
  · rw [if_pos hcap]
    exact ⟨le_refl 1, hM⟩
  · rw [if_neg hcap]
    refine ⟨?_, ?_⟩ <;> dsimp only <;> omega

/-- C9 witness: a fresh limiter with the default per-minute cap of 50. -/
theorem wait_minute_counter_bounds_witness :
    1 ≤ ((RateLimiter.wait ⟨2, 50, 0, 0, 0⟩ 0).1).requests_this_minute ∧
    ((RateLimiter.wait ⟨2, 50, 0, 0, 0⟩ 0).1).requests_this_minute ≤
      (RateLimiter.mk 2 50 0 0 0).requests_per_minute :=
  wait_minute_counter_bounds ⟨2, 50, 0, 0, 0⟩ 0 (by decide)

/-! ## Theorems about the character CSV -/

lemma ok_bind {α β : Type} (a : α) (f : α → Except String β) :
    (Except.ok a >>= f) = f a := rfl

lemma error_bind {α β : Type} (e : String) (f : α → Except String β) :
    ((Except.error e : Except String α) >>= f) = Except.error e := rfl

/-- The row that one character contributes to the output (if any), given
the detail-endpoint oracle. -/
def writtenRow (detailApi : Json → Except String Json) (character : Json) :
    Option CharRow :=
  match charStep detailApi character with
  | .ok r => r
  | .error _ => none

lemma charWriteLoop_all_ok (detailApi : Json → Except String Json) :
    ∀ chars : List Json,
      (∀ c ∈ chars, ∃ r, charStep detailApi c = Except.ok r) →
      charWriteLoop detailApi chars =
        (chars.filterMap (writtenRow detailApi), none) := by
  intro chars
  induction chars with
  | nil => intro _; rfl
  | cons c rest ih =>
    intro h
    obtain ⟨r, hr⟩ := h c (List.mem_cons_self c rest)
    have hrest := ih (fun x hx => h x (List.mem_cons_of_mem c hx))
    cases r with
    | none => simp [charWriteLoop, hr, hrest, writtenRow]
    | some row => simp [charWriteLoop, hr, hrest, writtenRow]

/-- C7: when no iteration of the character loop raises, the character CSV is
written completely, and its rows are exactly the rows of the characters
whose detail fetch succeeded (with truthy data), in encounter order: a
character whose detail fetch failed is omitted entirely, with no partial or
blank row. -/
theorem character_partial_failure_isolation
    (detailApi : Json → Except String Json) (all_characters : List Json)
    (h : ∀ c ∈ all_characters, ∃ r, charStep detailApi c = Except.ok r) :
    process_character_data none detailApi all_characters =
      CsvFile.complete (all_characters.filterMap (writtenRow detailApi)) := by
  simp [process_character_data, charWriteLoop_all_ok detailApi all_characters h]

/-- Detail response for character `n` in the C7 witness. -/
def w7resp (n : Int) : Json :=
  .jobj [("data", .jobj [("mal_id", .jnum n), ("name", .jstr "N"),
                         ("favorites", .jnum 3)])]

/-- Detail endpoint of the C7 witness: fails for character id 5 only. -/
def w7detail : Json → Except String Json
  | .jnum 5 => Except.error "retries exhausted"
  | .jnum n => Except.ok (w7resp n)
  | _ => Except.error "bad id"

/-- Character summary record `n` of the C7 witness. -/
def w7char (n : Int) : Json :=
  .jobj [("character", .jobj [("mal_id", .jnum n)]), ("role", .jstr "Main"),
         ("anime_mal_id", .jnum 9), ("voice_actors", .jlist [])]

/-- Characters 1-5 of the C7 witness. -/
def w7chars : List Json := [w7char 1, w7char 2, w7char 3, w7char 4, w7char 5]

/-- C7 witness: among ids 1-5 with id 5 failing, the output file is complete
and contains exactly the rows of ids 1-4, in order. -/
theorem character_partial_failure_isolation_witness :
    process_character_data none w7detail w7chars =
      CsvFile.complete (w7chars.filterMap (writtenRow w7detail)) ∧
    (w7chars.filterMap (writtenRow w7detail)).map CharRow.mal_id =
      [Json.jnum 1, Json.jnum 2, Json.jnum 3, Json.jnum 4] :=
  ⟨character_partial_failure_isolation w7detail w7chars (by
      intro c hc
      simp only [w7chars, List.mem_cons, List.not_mem_nil, or_false] at hc
      rcases hc with rfl | rfl | rfl | rfl | rfl <;> exact ⟨_, rfl⟩),
    by rfl⟩

/-- C10: a detail response that succeeds at the HTTP level but lacks a
`data` key (or whose `data` is an empty object) makes
`fetch_character_details` return the empty dict, and the character loop then
skips that character exactly as it does when the fetch fails: the two cases
are indistinguishable at the output. -/
theorem empty_data_indistinguishable_from_failure
    (character inner cid resp : Json)
    (h1 : character.index "character" = Except.ok inner)
    (h2 : inner.index "mal_id" = Except.ok cid)
    (h3 : resp.getD "data" (Json.jobj []) = Json.jobj []) :
    fetch_character_details (Except.ok resp) = some (Json.jobj []) ∧
    charStep (fun _ => Except.ok resp) character = Except.ok none ∧
    charStep (fun _ => Except.error "retries exhausted") character = Except.ok none ∧
    process_character_data none (fun _ => Except.ok resp) [character] =
      process_character_data none (fun _ => Except.error "retries exhausted")
        [character] := by
  have hf : fetch_character_details (Except.ok resp) = some (Json.jobj []) := by
    simp [fetch_character_details, h3]
  have hs1 : charStep (fun _ => Except.ok resp) character = Except.ok none := by
    simp [charStep, h1, h2, ok_bind, hf, Json.isTruthy]
  have hs2 : charStep (fun _ => Except.error "retries exhausted") character =
      Except.ok none := by
    simp [charStep, h1, h2, ok_bind, fetch_character_details]
  exact ⟨hf, hs1, hs2, by simp [process_character_data, charWriteLoop, hs1, hs2]⟩

/-- C10 witness: a 200-level response with no `data` key. -/
theorem empty_data_indistinguishable_from_failure_witness :
    fetch_character_details (Except.ok (Json.jobj [("status", Json.jnum 200)])) =
      some (Json.jobj []) ∧
    charStep (fun _ => Except.ok (Json.jobj [("status", Json.jnum 200)]))
        (Json.jobj [("character", Json.jobj [("mal_id", Json.jnum 3)])]) =
      Except.ok none ∧
    charStep (fun _ => Except.error "retries exhausted")
        (Json.jobj [("character", Json.jobj [("mal_id", Json.jnum 3)])]) =
      Except.ok none ∧
    process_character_data none
        (fun _ => Except.ok (Json.jobj [("status", Json.jnum 200)]))
        [Json.jobj [("character", Json.jobj [("mal_id", Json.jnum 3)])]] =
      process_character_data none (fun _ => Except.error "retries exhausted")
        [Json.jobj [("character", Json.jobj [("mal_id", Json.jnum 3)])]] :=
  empty_data_indistinguishable_from_failure
    (Json.jobj [("character", Json.jobj [("mal_id", Json.jnum 3)])])
    (Json.jobj [("mal_id", Json.jnum 3)]) (Json.jnum 3)
    (Json.jobj [("status", Json.jnum 200)]) rfl rfl rfl

/-! ## Theorems about the paginated list fetch -/

lemma fetchIsekaiLoop_stop (listApi : Nat → Except String Json) (L : Nat)
    (acc : List Json) (page : Nat) (issued : List PageParams)
    (h : ¬ acc.length < L) :
    fetchIsekaiLoop listApi L acc page issued = (acc, issued) := by
  rw [fetchIsekaiLoop]
  simp [h]

lemma fetchIsekaiLoop_cons (listApi : Nat → Except String Json) (L : Nat)
    (acc : List Json) (page : Nat) (issued : List PageParams)
    (resp x : Json) (xs : List Json)
    (hlt : acc.length < L) (ha : listApi page = Except.ok resp)
    (hd : resp.getD "data" (Json.jlist []) = Json.jlist (x :: xs)) :
    fetchIsekaiLoop listApi L acc page issued =
      fetchIsekaiLoop listApi L (acc ++ x :: xs) (page + 1)
        (issued ++ [mkPageParams page]) := by
  rw [fetchIsekaiLoop]
  simp [hlt, ha, hd]

lemma fetchIsekaiLoop_full (listApi : Nat → Except String Json)
    (items : Nat → List Json)
    (hapi : ∀ p, listApi p = Except.ok (Json.jobj [("data", Json.jlist (items p))]))
    (hlen : ∀ p, (items p).length = 25) (L : Nat) :
    ∀ n acc page issued, L - List.length acc ≤ n →
      ((fetchIsekaiLoop listApi L acc page issued).1.length =
          acc.length + 25 * ((L - acc.length + 24) / 25)) ∧
      ((fetchIsekaiLoop listApi L acc page issued).2.length =
          issued.length + ((L - acc.length + 24) / 25)) ∧
      (∀ q ∈ (fetchIsekaiLoop listApi L acc page issued).2,
          q ∈ issued ∨ q.limit = 25) := by
  intro n
  induction n with
  | zero =>
    intro acc page issued hn
    have hstop : ¬ acc.length < L := by omega
    rw [fetchIsekaiLoop_stop _ _ _ _ _ hstop]
    have hz : L - acc.length = 0 := by omega
    rw [hz]
    exact ⟨by norm_num, by norm_num, fun q hq => Or.inl hq⟩
  | succ m ih =>
    intro acc page issued hn
    by_cases hlt : acc.length < L
    case neg =>
      rw [fetchIsekaiLoop_stop _ _ _ _ _ hlt]
      have hz : L - acc.length = 0 := by omega
      rw [hz]
      exact ⟨by norm_num, by norm_num, fun q hq => Or.inl hq⟩
    case pos =>
      have hl := hlen page
      obtain ⟨x, xs, hx⟩ : ∃ x xs, items page = x :: xs := by
        cases hitems : items page with
        | nil => rw [hitems] at hl; simp at hl
        | cons a as => exact ⟨a, as, rfl⟩
      have hd : (Json.jobj [("data", Json.jlist (items page))]).getD "data"
          (Json.jlist []) = Json.jlist (x :: xs) := by rw [hx]; rfl
      rw [fetchIsekaiLoop_cons _ _ _ _ _ _ x xs hlt (hapi page) hd]
      have hxl : (x :: xs).length = 25 := by rw [← hx]; exact hl
      have hlen' : (acc ++ x :: xs).length = acc.length + 25 := by
        rw [List.length_append, hxl]
      obtain ⟨h1, h2, h3⟩ := ih (acc ++ x :: xs) (page + 1)
        (issued ++ [mkPageParams page]) (by rw [hlen']; omega)
      refine ⟨?_, ?_, ?_⟩
      · rw [h1, hlen']; omega
      · rw [h2, hlen', List.length_append, List.length_cons, List.length_nil]
        omega
      · intro q hq
        rcases h3 q hq with hq' | hq'
        · rcases List.mem_append.mp hq' with hmem | hmem
          · exact Or.inl hmem
          · right
            have hqe : q = mkPageParams page := by simpa using hmem
            rw [hqe]; rfl
        · exact Or.inr hq'

/-- C1 (amended): for every configured anime-count limit `L`, when every
page of the list endpoint is full (25 items), the fetch issues exactly
`ceil(L/25)` page requests and returns exactly `L` items, but every issued
request (including the final one) carries `limit=25` — the final page's
surplus is trimmed client-side, not avoided by shrinking the request. -/
theorem fetch_isekai_anime_full_pages (listApi : Nat → Except String Json)
    (items : Nat → List Json)
    (hapi : ∀ p, listApi p = Except.ok (Json.jobj [("data", Json.jlist (items p))]))
    (hlen : ∀ p, (items p).length = 25) (L : Nat) :
    (fetch_isekai_anime listApi L).1.length = L ∧
    (fetch_isekai_anime listApi L).2.length = (L + 24) / 25 ∧
    ∀ q ∈ (fetch_isekai_anime listApi L).2, q.limit = 25 := by
  obtain ⟨h1, h2, h3⟩ := fetchIsekaiLoop_full listApi items hapi hlen L L [] 1 []
    (by omega)
  simp only [List.length_nil] at h1 h2
  refine ⟨?_, ?_, ?_⟩
  · show ((fetchIsekaiLoop listApi L [] 1 []).1.take L).length = L
    rw [List.length_take, h1]
    omega
  · show ((fetchIsekaiLoop listApi L [] 1 []).2).length = (L + 24) / 25
    rw [h2]
    omega
  · intro q hq
    rcases h3 q hq with hmem | hq'
    · simp at hmem
    · exact hq'

/-- A list endpoint that always returns a full page of 25 items. -/
def c1page : List Json := List.replicate 25 (Json.jnum 0)

/-- The always-full list endpoint of the C1 counterexample and witness. -/
def c1api : Nat → Except String Json :=
  fun _ => Except.ok (Json.jobj [("data", Json.jlist c1page)])

/-- C1 counterexample: with limit 30 and full pages, the fetch returns 30
items from 2 page requests, but BOTH requests carry `limit=25`; the second
request's `limit` parameter is 25, not the remainder `30 mod 25 = 5` the
claim demands. -/
theorem pagination_limit_param_cex :
    (fetch_isekai_anime c1api 30).1.length = 30 ∧
    (fetch_isekai_anime c1api 30).2.map PageParams.limit = [25, 25] ∧
    30 % 25 = 5 ∧ (25 : Nat) ≠ 5 := by
  have hloop : fetchIsekaiLoop c1api 30 [] 1 [] =
      ((([] ++ Json.jnum 0 :: List.replicate 24 (Json.jnum 0)) ++
          Json.jnum 0 :: List.replicate 24 (Json.jnum 0)),
        (([] ++ [mkPageParams 1]) ++ [mkPageParams 2])) := by
    rw [fetchIsekaiLoop_cons c1api 30 [] 1 []
        (Json.jobj [("data", Json.jlist c1page)]) (Json.jnum 0)
        (List.replicate 24 (Json.jnum 0)) (by decide) rfl rfl]
    rw [fetchIsekaiLoop_cons c1api 30 _ 2 _
        (Json.jobj [("data", Json.jlist c1page)]) (Json.jnum 0)
        (List.replicate 24 (Json.jnum 0)) (by decide) rfl rfl]
    rw [fetchIsekaiLoop_stop c1api 30 _ 3 _ (by decide)]
  refine ⟨?_, ?_, by decide, by decide⟩
  · show ((fetchIsekaiLoop c1api 30 [] 1 []).1.take 30).length = 30
    rw [hloop]
    decide
  · show ((fetchIsekaiLoop c1api 30 [] 1 []).2).map PageParams.limit = [25, 25]
    rw [hloop]
    rfl

/-- C1 witness: the amended statement instantiated at limit 30 with the
always-full endpoint: 30 items from `ceil(30/25) = 2` requests. -/
theorem fetch_isekai_anime_full_pages_witness :
    (fetch_isekai_anime c1api 30).1.length = 30 ∧
    (fetch_isekai_anime c1api 30).2.length = (30 + 24) / 25 :=
  have h := fetch_isekai_anime_full_pages c1api (fun _ => c1page)
    (fun _ => rfl) (fun _ => rfl) 30
  ⟨h.1, h.2.1⟩

/-! ## Theorems about row construction and missing-field defaulting -/

lemma pure_eq_ok {α : Type} (a : α) : (pure a : Except String α) = Except.ok a := rfl

lemma bind_eq_ok {α β : Type} {m : Except String α} {f : α → Except String β}
    {b : β} (h : (m >>= f) = Except.ok b) :
    ∃ a, m = Except.ok a ∧ f a = Except.ok b := by
  cases m with
  | error e => rw [error_bind] at h; simp at h
  | ok a => rw [ok_bind] at h; exact ⟨a, rfl, h⟩

/-- C2 (amended): in each output row only the columns built with `.get`
defaults — `title_english`, `synopsis`, `season`, `year` in the anime CSV
and `name_kanji`, `nicknames`, `about` in the character CSV — fall back to
an empty value when the upstream field is absent; every other column is a
bare subscript, so a record missing such a field (e.g. `type`) can never
produce a row: the `KeyError` aborts the whole CSV write. -/
theorem row_defaults_only_optional_fields :
    (∀ anime row, buildAnimeRow anime = Except.ok row →
      (anime.lookup "title_english" = none → row.title_english = Json.jstr "") ∧
      (anime.lookup "synopsis" = none → row.synopsis = Json.jstr "") ∧
      (anime.lookup "season" = none → row.season = Json.jstr "") ∧
      (anime.lookup "year" = none → row.year = Json.jstr "") ∧
      anime.lookup "type" ≠ none) ∧
    (∀ character char_details row,
      buildCharRow character char_details = Except.ok row →
      (char_details.lookup "name_kanji" = none → row.name_kanji = Json.jstr "") ∧
      (char_details.lookup "nicknames" = none → row.nicknames = "") ∧
      (char_details.lookup "about" = none → row.about = Json.jstr "")) := by
  constructor
  · intro anime row h
    rw [buildAnimeRow] at h
    obtain ⟨mal_id, hm, h⟩ := bind_eq_ok h
    obtain ⟨title, hti, h⟩ := bind_eq_ok h
    obtain ⟨type, hty, h⟩ := bind_eq_ok h
    obtain ⟨episodes, _, h⟩ := bind_eq_ok h
    obtain ⟨status, _, h⟩ := bind_eq_ok h
    obtain ⟨aired1, _, h⟩ := bind_eq_ok h
    obtain ⟨aired_from, _, h⟩ := bind_eq_ok h
    obtain ⟨aired2, _, h⟩ := bind_eq_ok h
    obtain ⟨aired_to, _, h⟩ := bind_eq_ok h
    obtain ⟨score, _, h⟩ := bind_eq_ok h
    obtain ⟨scored_by, _, h⟩ := bind_eq_ok h
    obtain ⟨rank, _, h⟩ := bind_eq_ok h
    obtain ⟨popularity, _, h⟩ := bind_eq_ok h
    obtain ⟨members, _, h⟩ := bind_eq_ok h
    obtain ⟨favorites, _, h⟩ := bind_eq_ok h
    obtain ⟨studios0, _, h⟩ := bind_eq_ok h
    obtain ⟨studios, _, h⟩ := bind_eq_ok h
    obtain ⟨genres0, _, h⟩ := bind_eq_ok h
    obtain ⟨genres, _, h⟩ := bind_eq_ok h
    obtain ⟨themes0, _, h⟩ := bind_eq_ok h
    obtain ⟨themes, _, h⟩ := bind_eq_ok h
    obtain ⟨duration, _, h⟩ := bind_eq_ok h
    obtain ⟨rating, _, h⟩ := bind_eq_ok h
    rw [pure_eq_ok, Except.ok.injEq] at h
    subst h
    refine ⟨?_, ?_, ?_, ?_, ?_⟩
    · intro hl
      show anime.getD "title_english" (Json.jstr "") = Json.jstr ""
      simp [Json.getD, hl]
    · intro hl
      show anime.getD "synopsis" (Json.jstr "") = Json.jstr ""
      simp [Json.getD, hl]
    · intro hl
      show anime.getD "season" (Json.jstr "") = Json.jstr ""
      simp [Json.getD, hl]
    · intro hl
      show anime.getD "year" (Json.jstr "") = Json.jstr ""
      simp [Json.getD, hl]
    · intro hnone
      rw [Json.index, hnone] at hty
      simp at hty
  · intro character char_details row h
    rw [buildCharRow] at h
    obtain ⟨mal_id, hm, h⟩ := bind_eq_ok h
    obtain ⟨name, _, h⟩ := bind_eq_ok h
    obtain ⟨nick, hn, h⟩ := bind_eq_ok h
    obtain ⟨role, _, h⟩ := bind_eq_ok h
    obtain ⟨anime_mal_id, _, h⟩ := bind_eq_ok h
    obtain ⟨favorites, _, h⟩ := bind_eq_ok h
    obtain ⟨va0, _, h⟩ := bind_eq_ok h
    obtain ⟨voice_actors, _, h⟩ := bind_eq_ok h
    rw [pure_eq_ok, Except.ok.injEq] at h
    subst h
    refine ⟨?_, ?_, ?_⟩
    · intro hl
      show char_details.getD "name_kanji" (Json.jstr "") = Json.jstr ""
      simp [Json.getD, hl]
    · intro hl
      show nick = ""
      simp only [Json.getD, hl, Option.getD_none] at hn
      have hj : joinStrs (Json.jlist []) = Except.ok "" := rfl
      rw [hj, Except.ok.injEq] at hn
      exact hn.symm
    · intro hl
      show char_details.getD "about" (Json.jstr "") = Json.jstr ""
      simp [Json.getD, hl]

/-- An anime record with `mal_id` and `title` but no `type` field. -/
def c2anime : Json := .jobj [("mal_id", .jnum 1), ("title", .jstr "T")]

/-- C2 counterexample: a record missing the `type` field does not get a
blank `type` cell — building its row raises `KeyError("type")`, which
aborts the CSV write instead of defaulting. -/
theorem missing_required_field_fails_row_cex :
    c2anime.lookup "type" = none ∧
    buildAnimeRow c2anime = Except.error "type" ∧
    process_anime_data none [c2anime] = CsvFile.aborted [] "type" :=
  ⟨rfl, rfl, rfl⟩

/-- An anime record carrying every subscripted field and none of the
optional ones. -/
def w2anime : Json :=
  .jobj [("mal_id", .jnum 1), ("title", .jstr "T"), ("type", .jstr "TV"),
         ("episodes", .jnum 12), ("status", .jstr "Finished"),
         ("aired", .jobj [("from", .jstr "2020-01-01"), ("to", .jstr "2020-03-31")]),
         ("score", .jnum 8), ("scored_by", .jnum 100), ("rank", .jnum 1),
         ("popularity", .jnum 2), ("members", .jnum 3), ("favorites", .jnum 4),
         ("studios", .jlist []), ("genres", .jlist []), ("themes", .jlist []),
         ("duration", .jstr "24 min"), ("rating", .jstr "PG-13")]

/-- The row `w2anime` produces. -/
def w2row : AnimeRow :=
  { mal_id := .jnum 1, title := .jstr "T", title_english := .jstr "",
    synopsis := .jstr "", type := .jstr "TV", episodes := .jnum 12,
    status := .jstr "Finished", aired_from := .jstr "2020-01-01",
    aired_to := .jstr "2020-03-31", score := .jnum 8, scored_by := .jnum 100,
    rank := .jnum 1, popularity := .jnum 2, members := .jnum 3,
    favorites := .jnum 4, studios := "", genres := "", themes := "",
    duration := .jstr "24 min", rating := .jstr "PG-13",
    season := .jstr "", year := .jstr "" }

/-- C2 witness: a record with all required fields and no optional ones
builds successfully, with the four optional anime columns blank. -/
theorem row_defaults_only_optional_fields_witness :
    buildAnimeRow w2anime = Except.ok w2row ∧
    w2row.title_english = Json.jstr "" ∧ w2row.synopsis = Json.jstr "" ∧
    w2row.season = Json.jstr "" ∧ w2row.year = Json.jstr "" :=
  have h := row_defaults_only_optional_fields.1 w2anime w2row rfl
  ⟨rfl, h.1 rfl, h.2.1 rfl, h.2.2.1 rfl, h.2.2.2.1 rfl⟩

/-! ## Theorems about the run's failure behaviour -/

end MalScraper
